import Mathlib

/-!
Verification of the request-construction and validation core of
`kubectl create persistentvolumeclaim`
(src/pkg/cmd/create/create_persistentvolumeclaim.go).

The embedding models the three components of the core:
the quantity parser/comparator, the option validator (`Validate`),
and the claim builder (`createPersistentVolumeClaim` with its helpers
`parseAccessModes` and `parseResources`).
-/

namespace PVC

/-- The command options carried from the CLI layer into the core
(`CreatePersistentVolumeClaimOptions` in the Go source; only the fields
the core reads are modelled). -/
structure CreatePersistentVolumeClaimOptions where
  Name : String
  Namespace : String
  StorageRequest : String
  StorageLimit : String
  StorageClassName : String
  AccessModes : String
  EnforceNamespace : Bool
deriving Repr, DecidableEq

/-- Multiplier of a recognized quantity suffix: binary SI units
Ki/Mi/Gi/Ti, decimal units K/M/G/T, or the empty suffix meaning base
units. Unknown suffixes are rejected. -/
def suffixMultiplier (s : String) : Option Nat :=
  if s = "" then some 1
  else if s = "Ki" then some 1024
  else if s = "Mi" then some (1024 * 1024)
  else if s = "Gi" then some (1024 * 1024 * 1024)
  else if s = "Ti" then some (1024 * 1024 * 1024 * 1024)
  else if s = "K" then some 1000
  else if s = "M" then some 1000000
  else if s = "G" then some 1000000000
  else if s = "T" then some 1000000000000
  else none

/-- Split a character list into its leading run of decimal digits and
the remainder. -/
def leadingDigits : List Char → List Char × List Char
  | [] => ([], [])
  | c :: cs =>
    if c.isDigit then
      let (d, r) := leadingDigits cs
      (c :: d, r)
    else ([], c :: cs)

/-- Numeric value of a list of decimal digit characters, most
significant first. -/
def natOfDigits : Nat → List Char → Nat
  | acc, [] => acc
  | acc, c :: cs => natOfDigits (acc * 10 + (c.toNat - 48)) cs

/-- Modelled from the spec: the quantity parser
(`resource.ParseQuantity` from k8s.io/apimachinery) is an external
library, not part of this repository's sources. Per section 4.1 of the
spec, the input must be a non-empty numeric literal optionally suffixed
by a recognized binary or decimal unit (Ki, Mi, Gi, Ti or K, M, G, T,
or no suffix meaning base units); parsing yields an exact,
arbitrary-precision capacity (here: a natural number of base units, so
that differently-suffixed but equal-magnitude values compare equal),
and a syntactically invalid literal (non-numeric, unknown unit, empty
string) yields a parse error that propagates to the caller. -/
def parseQuantity (raw : String) : Except String Nat :=
  let (ds, rest) := leadingDigits raw.toList
  if ds = [] then .error ("quantities must match the regular expression: " ++ raw)
  else
    match suffixMultiplier (String.mk rest) with
    | some m => .ok (natOfDigits 0 ds * m)
    | none => .error ("unable to parse quantity suffix: " ++ raw)

/-- Helper of `splitComma`: accumulates the current field (reversed)
while scanning the remaining characters. -/
def splitCommaAux : List Char → List Char → List String
  | [], acc => [String.mk acc.reverse]
  | c :: cs, acc =>
    if c = ',' then String.mk acc.reverse :: splitCommaAux cs []
    else splitCommaAux cs (c :: acc)

/-- Go's `strings.Split(s, ",")`: the substrings of `s` between commas,
in order; the empty string splits to a single empty field. -/
def splitComma (s : String) : List String :=
  splitCommaAux s.toList []

/-- The fixed allowed access-mode set from `Validate` in the source. -/
def validModes : List String := ["ReadOnlyMany", "ReadWriteMany", "ReadWriteOnce"]

/-- The loop of `Validate` over the comma-separated access-mode tokens:
returns the first token not contained in `validModes`, if any. -/
def findInvalidMode : List String → Option String
  | [] => none
  | am :: rest =>
    if am ∈ validModes then findInvalidMode rest else some am

/-- `Validate` from the source: rejects an empty name, then an empty
storage request (the source tests `len(o.StorageRequest) == 0` twice in
one conjunction, kept verbatim here), then, if access modes were
supplied, the first comma-separated token outside the allowed set. -/
def Validate (o : CreatePersistentVolumeClaimOptions) : Except String Unit :=
  if o.Name.length = 0 then .error "name must be specified"
  else if o.StorageRequest.length = 0 ∧ o.StorageRequest.length = 0 then
    .error "storage-request must be specified"
  else if o.AccessModes.length ≠ 0 then
    match findInvalidMode (splitComma o.AccessModes) with
    | some am => .error ("provided access mode " ++ am ++ " is invalid")
    | none => .ok ()
  else .ok ()

/-- The storage entries of `v1.VolumeResourceRequirements`: the Go
value holds `Requests` and `Limits` resource lists that this command
populates only at the `storage` key, so each is modelled as the
optional capacity stored under that key. -/
structure VolumeResourceRequirements where
  Requests : Option Nat
  Limits : Option Nat
deriving Repr, DecidableEq

/-- `parseResources` from the source: parse the storage request; if a
limit string is present, parse it and require it strictly greater than
the request (`rl.Cmp(rr) < 1` rejects equal or lesser limits); on any
failure return the error with a zero-value requirements placeholder
discarded by the caller. -/
def parseResources (o : CreatePersistentVolumeClaimOptions) :
    Except String VolumeResourceRequirements :=
  match parseQuantity o.StorageRequest with
  | .error e => .error e
  | .ok rr =>
    if o.StorageLimit.length ≠ 0 then
      match parseQuantity o.StorageLimit with
      | .error e => .error e
      | .ok rl =>
        if rl ≤ rr then
          .error "Resource limit is the same/less than the resource request"
        else .ok { Requests := some rr, Limits := some rl }
    else .ok { Requests := some rr, Limits := none }

/-- `parseAccessModes` from the source: split the access-modes string
on commas and carry every token through verbatim, in order. -/
def parseAccessModes (o : CreatePersistentVolumeClaimOptions) : List String :=
  splitComma o.AccessModes

/-- The constructed claim (`corev1.PersistentVolumeClaim`, restricted
to the fields this command populates). An absent access-mode sequence
is the empty list; absent limits and storage class are `none`. -/
structure PersistentVolumeClaim where
  ApiVersion : String
  Kind : String
  Name : String
  Namespace : String
  Resources : VolumeResourceRequirements
  AccessModes : List String
  StorageClassName : Option String
deriving Repr, DecidableEq

/-- `createPersistentVolumeClaim` from the source: resolve the
effective namespace from the enforcement flag, build the identity
fields, delegate capacities to `parseResources` (propagating its error
with a nil claim), then attach access modes and storage class name only
when supplied. -/
def createPersistentVolumeClaim (o : CreatePersistentVolumeClaimOptions) :
    Except String PersistentVolumeClaim :=
  match parseResources o with
  | .error e => .error e
  | .ok ps =>
    .ok { ApiVersion := "v1"
          Kind := "PersistentVolumeClaim"
          Name := o.Name
          Namespace := if o.EnforceNamespace then o.Namespace else ""
          Resources := ps
          AccessModes := if o.AccessModes.length ≠ 0 then parseAccessModes o else []
          StorageClassName :=
            if o.StorageClassName.length ≠ 0 then some o.StorageClassName else none }

/-! Helper lemmas. -/

theorem length_ne_zero_of_ne_empty (s : String) (h : s ≠ "") : s.length ≠ 0 := by
  cases s with
  | mk data =>
    simp [String.length]
    intro hd
    exact h (by simp [hd])

theorem eq_empty_of_length_eq_zero (s : String) (h : s.length = 0) : s = "" := by
  cases s with
  | mk data =>
    simp [String.length] at h
    simp [h]

theorem findInvalidMode_eq_none (l : List String) :
    findInvalidMode l = none ↔ ∀ am ∈ l, am ∈ validModes := by
  induction l with
  | nil => simp [findInvalidMode]
  | cons a rest ih =>
    by_cases h : a ∈ validModes
    · simp [findInvalidMode, h, ih]
    · simp [findInvalidMode, h]

theorem findInvalidMode_eq_some (l : List String) (am : String)
    (h : findInvalidMode l = some am) : am ∈ l ∧ am ∉ validModes := by
  induction l with
  | nil => simp [findInvalidMode] at h
  | cons a rest ih =>
    by_cases hm : a ∈ validModes
    · rw [findInvalidMode, if_pos hm] at h
      rcases ih h with ⟨h1, h2⟩
      exact ⟨List.mem_cons_of_mem _ h1, h2⟩
    · rw [findInvalidMode, if_neg hm] at h
      injection h with h
      subst h
      exact ⟨List.mem_cons_self _ _, hm⟩

theorem findInvalidMode_append (l₁ : List String) (am : String) (l₂ : List String)
    (h₁ : ∀ x ∈ l₁, x ∈ validModes) (h₂ : am ∉ validModes) :
    findInvalidMode (l₁ ++ am :: l₂) = some am := by
  induction l₁ with
  | nil => simp [findInvalidMode, h₂]
  | cons a rest ih =>
    have ha : a ∈ validModes := h₁ a (List.mem_cons_self _ _)
    rw [List.cons_append, findInvalidMode, if_pos ha]
    exact ih fun x hx => h₁ x (List.mem_cons_of_mem _ hx)

theorem findInvalidMode_of_mem (l : List String) (a : String)
    (ha : a ∈ l) (hv : a ∉ validModes) :
    ∃ am, findInvalidMode l = some am ∧ am ∈ l ∧ am ∉ validModes := by
  cases hF : findInvalidMode l with
  | none => exact absurd ((findInvalidMode_eq_none l).mp hF a ha) hv
  | some am => exact ⟨am, rfl, findInvalidMode_eq_some l am hF⟩

theorem access_mode_msg_ne (am : String) :
    "provided access mode " ++ am ++ " is invalid" ≠ "storage-request must be specified" := by
  intro h
  have h2 := congrArg (fun s => s.data.head?) h
  simp only [String.data_append] at h2
  have h3 : some 'p' = some 's' := h2
  exact absurd h3 (by decide)

/-- Validate, once the name and storage-request checks have passed and
access modes were supplied, succeeds exactly when every comma-separated
token is in the allowed set. -/
theorem validate_ok_iff (o : CreatePersistentVolumeClaimOptions)
    (hn : o.Name ≠ "") (hs : o.StorageRequest ≠ "") (ha : o.AccessModes ≠ "") :
    Validate o = .ok () ↔ ∀ am ∈ splitComma o.AccessModes, am ∈ validModes := by
  have hnl := length_ne_zero_of_ne_empty _ hn
  have hsl := length_ne_zero_of_ne_empty _ hs
  have hal := length_ne_zero_of_ne_empty _ ha
  unfold Validate
  rw [if_neg hnl, if_neg (fun h => hsl h.1), if_pos hal]
  cases hF : findInvalidMode (splitComma o.AccessModes) with
  | none =>
    constructor
    · intro _
      exact fun am ham => (findInvalidMode_eq_none _).mp hF am ham
    · intro _
      rfl
  | some am =>
    rcases findInvalidMode_eq_some _ _ hF with ⟨h1, h2⟩
    constructor
    · intro h
      simp at h
    · intro hall
      exact absurd (hall am h1) h2

/-- Validate, once the name and storage-request checks have passed and
access modes were supplied, reports the first comma-separated token
outside the allowed set. -/
theorem validate_error_first (o : CreatePersistentVolumeClaimOptions)
    (hn : o.Name ≠ "") (hs : o.StorageRequest ≠ "") (ha : o.AccessModes ≠ "")
    (l₁ : List String) (am : String) (l₂ : List String)
    (hsplit : splitComma o.AccessModes = l₁ ++ am :: l₂)
    (h₁ : ∀ x ∈ l₁, x ∈ validModes) (h₂ : am ∉ validModes) :
    Validate o = .error ("provided access mode " ++ am ++ " is invalid") := by
  have hnl := length_ne_zero_of_ne_empty _ hn
  have hsl := length_ne_zero_of_ne_empty _ hs
  have hal := length_ne_zero_of_ne_empty _ ha
  have hF : findInvalidMode (splitComma o.AccessModes) = some am := by
    rw [hsplit]; exact findInvalidMode_append l₁ am l₂ h₁ h₂
  unfold Validate
  rw [if_neg hnl, if_neg (fun h => hsl h.1), if_pos hal, hF]

/-! The claims. -/

/-- Claim C1: for every non-empty storage request string and non-empty
limit string that both parse as capacities, if the limit's capacity is
less than or equal to the request's capacity — in any combination of
units — then building the claim fails with the limit-comparison
error. -/
theorem claim1_limit_le_request_rejected
    (o : CreatePersistentVolumeClaimOptions) (cr cl : Nat)
    (hr : parseQuantity o.StorageRequest = .ok cr)
    (hl : parseQuantity o.StorageLimit = .ok cl)
    (hne : o.StorageLimit ≠ "")
    (hle : cl ≤ cr) :
    createPersistentVolumeClaim o =
      .error "Resource limit is the same/less than the resource request" := by
  have hll := length_ne_zero_of_ne_empty _ hne
  have hps : parseResources o =
      .error "Resource limit is the same/less than the resource request" := by
    unfold parseResources
    rw [hr]; dsimp only
    rw [if_pos hll, hl]; dsimp only
    rw [if_pos hle]
  unfold createPersistentVolumeClaim
  rw [hps]

/-- Witness for C1 at request "5Gi" and limit "5120Mi": the two are
numerically equal although written with different unit suffixes, so the
build fails. -/
theorem claim1_witness :
    createPersistentVolumeClaim
      { Name := "test-pvc", Namespace := "", StorageRequest := "5Gi",
        StorageLimit := "5120Mi", StorageClassName := "", AccessModes := "",
        EnforceNamespace := false } =
      .error "Resource limit is the same/less than the resource request" :=
  claim1_limit_le_request_rejected _ 5368709120 5368709120 rfl rfl
    (by decide) (by decide)

/-- Claim C2: for every non-empty valid capacity strings for request
and limit with the limit's capacity strictly greater than the
request's, building succeeds and the resulting spec's storage limit
equals the limit's capacity exactly, with the storage request equal to
the request's capacity. -/
theorem claim2_greater_limit_built_exactly
    (o : CreatePersistentVolumeClaimOptions) (cr cl : Nat)
    (hr : parseQuantity o.StorageRequest = .ok cr)
    (hl : parseQuantity o.StorageLimit = .ok cl)
    (hne : o.StorageLimit ≠ "")
    (hgt : cr < cl) :
    (createPersistentVolumeClaim o).map
        (fun pvc => (pvc.Resources.Requests, pvc.Resources.Limits)) =
      .ok (some cr, some cl) := by
  have hll := length_ne_zero_of_ne_empty _ hne
  have hps : parseResources o = .ok { Requests := some cr, Limits := some cl } := by
    unfold parseResources
    rw [hr]; dsimp only
    rw [if_pos hll, hl]; dsimp only
    rw [if_neg (Nat.not_le.mpr hgt)]
  unfold createPersistentVolumeClaim
  rw [hps]
  rfl

/-- Witness for C2 at request "5Gi" and limit "10Gi". -/
theorem claim2_witness :
    (createPersistentVolumeClaim
      { Name := "test-pvc", Namespace := "", StorageRequest := "5Gi",
        StorageLimit := "10Gi", StorageClassName := "", AccessModes := "",
        EnforceNamespace := false }).map
        (fun pvc => (pvc.Resources.Requests, pvc.Resources.Limits)) =
      .ok (some 5368709120, some 10737418240) :=
  claim2_greater_limit_built_exactly _ 5368709120 10737418240 rfl rfl
    (by decide) (by decide)

/-- Claim C5: for every request with an empty name, Validate returns
the error "name must be specified", regardless of the values of all
other fields. -/
theorem claim5_empty_name_rejected
    (o : CreatePersistentVolumeClaimOptions) (h : o.Name = "") :
    Validate o = .error "name must be specified" := by
  unfold Validate
  rw [if_pos (by rw [h]; rfl)]

/-- Witness for C5 with every other field populated. -/
theorem claim5_witness :
    Validate
      { Name := "", Namespace := "ns", StorageRequest := "5Gi",
        StorageLimit := "10Gi", StorageClassName := "sc",
        AccessModes := "ReadWriteOnce", EnforceNamespace := true } =
      .error "name must be specified" :=
  claim5_empty_name_rejected _ rfl

/-- Claim C6: whenever a claim is built, its namespace field equals the
request's namespace when namespace enforcement was requested, and is
the empty string otherwise, regardless of the namespace value
supplied. -/
theorem claim6_namespace_enforcement
    (o : CreatePersistentVolumeClaimOptions) (pvc : PersistentVolumeClaim)
    (h : createPersistentVolumeClaim o = .ok pvc) :
    pvc.Namespace = if o.EnforceNamespace then o.Namespace else "" := by
  unfold createPersistentVolumeClaim at h
  cases hp : parseResources o with
  | error e =>
    rw [hp] at h
    exact absurd h (by simp)
  | ok ps =>
    rw [hp] at h
    injection h with h
    subst h
    rfl

/-- Witness for C6 with enforcement requested and namespace "ns". -/
theorem claim6_witness :
    ({ ApiVersion := "v1", Kind := "PersistentVolumeClaim", Name := "test-pvc",
       Namespace := "ns", Resources := { Requests := some 5368709120, Limits := none },
       AccessModes := [], StorageClassName := none } :
      PersistentVolumeClaim).Namespace =
      if ({ Name := "test-pvc", Namespace := "ns", StorageRequest := "5Gi",
            StorageLimit := "", StorageClassName := "", AccessModes := "",
            EnforceNamespace := true } :
          CreatePersistentVolumeClaimOptions).EnforceNamespace
      then ({ Name := "test-pvc", Namespace := "ns", StorageRequest := "5Gi",
              StorageLimit := "", StorageClassName := "", AccessModes := "",
              EnforceNamespace := true } :
            CreatePersistentVolumeClaimOptions).Namespace
      else "" :=
  claim6_namespace_enforcement _ _ rfl

/-- Claim C7: for every input on which building fails (parse error on
request or limit, or a limit not strictly greater than the request),
the builder returns the error and no claim value at all — never a
partially populated claim. -/
theorem claim7_no_partial_claim_on_failure
    (o : CreatePersistentVolumeClaimOptions) (e : String)
    (h : parseResources o = .error e) :
    createPersistentVolumeClaim o = .error e ∧
      ∀ pvc, createPersistentVolumeClaim o ≠ .ok pvc := by
  unfold createPersistentVolumeClaim
  rw [h]
  exact ⟨rfl, fun pvc hc => Except.noConfusion hc⟩

/-- Witness for C7 at a storage request that fails to parse. -/
theorem claim7_witness :
    createPersistentVolumeClaim
      { Name := "test-pvc", Namespace := "", StorageRequest := "bogus",
        StorageLimit := "", StorageClassName := "", AccessModes := "",
        EnforceNamespace := false } =
      .error "quantities must match the regular expression: bogus" :=
  (claim7_no_partial_claim_on_failure
    { Name := "test-pvc", Namespace := "", StorageRequest := "bogus",
      StorageLimit := "", StorageClassName := "", AccessModes := "",
      EnforceNamespace := false }
    "quantities must match the regular expression: bogus" rfl).1

/-- Claim C3: for every request with a non-empty name, Validate
reports "storage-request must be specified" exactly when the storage
request is empty — the intended rule is "storageRequest must be
non-empty", the duplicated condition in the source being redundant. -/
theorem claim3_storage_request_rule
    (o : CreatePersistentVolumeClaimOptions) (hn : o.Name ≠ "") :
    Validate o = .error "storage-request must be specified" ↔
      o.StorageRequest = "" := by
  have hnl := length_ne_zero_of_ne_empty _ hn
  unfold Validate
  rw [if_neg hnl]
  by_cases hs : o.StorageRequest.length = 0
  · rw [if_pos ⟨hs, hs⟩]
    constructor
    · intro _
      exact eq_empty_of_length_eq_zero _ hs
    · intro _
      rfl
  · rw [if_neg (fun h => hs h.1)]
    constructor
    · intro h
      exfalso
      by_cases ha : o.AccessModes.length ≠ 0
      · rw [if_pos ha] at h
        cases hF : findInvalidMode (splitComma o.AccessModes) with
        | none =>
          rw [hF] at h
          exact Except.noConfusion h
        | some am =>
          rw [hF] at h
          dsimp only at h
          injection h with h
          exact access_mode_msg_ne am h
      · rw [if_neg ha] at h
        exact Except.noConfusion h
    · intro h
      exact absurd (by rw [h]; rfl : o.StorageRequest.length = 0) hs

/-- Witness for C3 at an empty storage request with a non-empty
name. -/
theorem claim3_witness :
    Validate
      { Name := "pvc-testing", Namespace := "", StorageRequest := "",
        StorageLimit := "", StorageClassName := "", AccessModes := "",
        EnforceNamespace := false } =
      .error "storage-request must be specified" :=
  (claim3_storage_request_rule
    { Name := "pvc-testing", Namespace := "", StorageRequest := "",
      StorageLimit := "", StorageClassName := "", AccessModes := "",
      EnforceNamespace := false } (by decide)).mpr rfl

/-- Claim C4: for every non-empty accessModes string (with the earlier
name and storage-request rules passing), Validate accepts exactly when
every comma-separated token is in the fixed set ReadOnlyMany,
ReadWriteMany, ReadWriteOnce, and otherwise reports "provided access
mode <token> is invalid" for the first offending token in input
order. -/
theorem claim4_access_modes_rule
    (o : CreatePersistentVolumeClaimOptions)
    (hn : o.Name ≠ "") (hs : o.StorageRequest ≠ "") (ha : o.AccessModes ≠ "") :
    (Validate o = .ok () ↔ ∀ am ∈ splitComma o.AccessModes, am ∈ validModes) ∧
    ∀ l₁ am l₂, splitComma o.AccessModes = l₁ ++ am :: l₂ →
      (∀ x ∈ l₁, x ∈ validModes) → am ∉ validModes →
      Validate o = .error ("provided access mode " ++ am ++ " is invalid") :=
  ⟨validate_ok_iff o hn hs ha,
   fun l₁ am l₂ hsplit h₁ h₂ => validate_error_first o hn hs ha l₁ am l₂ hsplit h₁ h₂⟩

/-- Witness for C4: "ReadWriteBoth" after a valid token is named in
the error. -/
theorem claim4_witness :
    Validate
      { Name := "pvc-testing", Namespace := "", StorageRequest := "5Gi",
        StorageLimit := "", StorageClassName := "",
        AccessModes := "ReadWriteOnce,ReadWriteBoth", EnforceNamespace := false } =
      .error "provided access mode ReadWriteBoth is invalid" :=
  (claim4_access_modes_rule
    { Name := "pvc-testing", Namespace := "", StorageRequest := "5Gi",
      StorageLimit := "", StorageClassName := "",
      AccessModes := "ReadWriteOnce,ReadWriteBoth", EnforceNamespace := false }
    (by decide) (by decide) (by decide)).2
    ["ReadWriteOnce"] "ReadWriteBoth" [] (by decide) (by decide) (by decide)

/-- Claim C8: building with only a valid storage request (empty limit,
access modes and storage class) succeeds, and the resulting spec's only
populated field besides identity is the storage request capacity: no
limits entry, no access modes, no storage class name. -/
theorem claim8_request_only
    (o : CreatePersistentVolumeClaimOptions) (cr : Nat)
    (hr : parseQuantity o.StorageRequest = .ok cr)
    (hl : o.StorageLimit = "") (ha : o.AccessModes = "")
    (hsc : o.StorageClassName = "") :
    (createPersistentVolumeClaim o).map
        (fun pvc => (pvc.Resources.Requests, pvc.Resources.Limits,
          pvc.AccessModes, pvc.StorageClassName)) =
      .ok (some cr, none, [], none) := by
  obtain ⟨nm, ns, sr, sl, scn, am, en⟩ := o
  dsimp only at hr hl ha hsc
  subst hl ha hsc
  unfold createPersistentVolumeClaim parseResources
  rw [hr]
  rfl

/-- Witness for C8 at storage request "5Gi". -/
theorem claim8_witness :
    (createPersistentVolumeClaim
      { Name := "test-pvc", Namespace := "", StorageRequest := "5Gi",
        StorageLimit := "", StorageClassName := "", AccessModes := "",
        EnforceNamespace := false }).map
        (fun pvc => (pvc.Resources.Requests, pvc.Resources.Limits,
          pvc.AccessModes, pvc.StorageClassName)) =
      .ok (some 5368709120, none, [], none) :=
  claim8_request_only
    { Name := "test-pvc", Namespace := "", StorageRequest := "5Gi",
      StorageLimit := "", StorageClassName := "", AccessModes := "",
      EnforceNamespace := false } 5368709120 rfl rfl rfl rfl

/-- Claim C9: whenever access modes were supplied and the capacities
parse, the builder populates the spec's access-mode sequence with
exactly the comma-separated tokens of the input, verbatim and in input
order, without deduplicating repeated tokens and without failing on
tokens outside the allowed set. -/
theorem claim9_access_modes_verbatim
    (o : CreatePersistentVolumeClaimOptions) (ps : VolumeResourceRequirements)
    (ha : o.AccessModes ≠ "") (hps : parseResources o = .ok ps) :
    (createPersistentVolumeClaim o).map (fun pvc => pvc.AccessModes) =
      .ok (splitComma o.AccessModes) := by
  have hal := length_ne_zero_of_ne_empty _ ha
  unfold createPersistentVolumeClaim
  rw [hps]
  dsimp only
  rw [if_pos hal]
  rfl

/-- Witness for C9: a duplicated valid token and an invalid token are
both carried through verbatim. -/
theorem claim9_witness :
    (createPersistentVolumeClaim
      { Name := "test-pvc", Namespace := "", StorageRequest := "5Gi",
        StorageLimit := "", StorageClassName := "",
        AccessModes := "ReadWriteOnce,ReadWriteOnce,Bogus",
        EnforceNamespace := false }).map (fun pvc => pvc.AccessModes) =
      .ok ["ReadWriteOnce", "ReadWriteOnce", "Bogus"] :=
  claim9_access_modes_verbatim
    { Name := "test-pvc", Namespace := "", StorageRequest := "5Gi",
      StorageLimit := "", StorageClassName := "",
      AccessModes := "ReadWriteOnce,ReadWriteOnce,Bogus",
      EnforceNamespace := false }
    { Requests := some 5368709120, Limits := none } (by decide) rfl

/-- Claim C10: for every non-empty accessModes string whose
comma-split contains an empty token (trailing or consecutive commas),
Validate rejects the request (with the earlier rules passing), because
the empty token is not in the allowed set; when every non-empty token
is valid, the error names the empty token. -/
theorem claim10_empty_token_rejected
    (o : CreatePersistentVolumeClaimOptions)
    (hn : o.Name ≠ "") (hs : o.StorageRequest ≠ "") (ha : o.AccessModes ≠ "")
    (he : "" ∈ splitComma o.AccessModes) :
    Validate o ≠ .ok () ∧
    ((∀ am ∈ splitComma o.AccessModes, am ≠ "" → am ∈ validModes) →
      Validate o = .error "provided access mode  is invalid") := by
  constructor
  · intro hok
    exact absurd ((validate_ok_iff o hn hs ha).mp hok "" he) (by decide)
  · intro hvalid
    rcases findInvalidMode_of_mem _ _ he (by decide) with ⟨am, hF, ham, hnv⟩
    have ham0 : am = "" := by
      by_contra hne
      exact hnv (hvalid am ham hne)
    subst ham0
    have hnl := length_ne_zero_of_ne_empty _ hn
    have hsl := length_ne_zero_of_ne_empty _ hs
    have hal := length_ne_zero_of_ne_empty _ ha
    unfold Validate
    rw [if_neg hnl, if_neg (fun h => hsl h.1), if_pos hal, hF]
    rfl

/-- Witness for C10 at the trailing-comma input "ReadWriteOnce,". -/
theorem claim10_witness :
    Validate
      { Name := "pvc-testing", Namespace := "", StorageRequest := "5Gi",
        StorageLimit := "", StorageClassName := "",
        AccessModes := "ReadWriteOnce,", EnforceNamespace := false } =
      .error "provided access mode  is invalid" :=
  (claim10_empty_token_rejected
    { Name := "pvc-testing", Namespace := "", StorageRequest := "5Gi",
      StorageLimit := "", StorageClassName := "",
      AccessModes := "ReadWriteOnce,", EnforceNamespace := false }
    (by decide) (by decide) (by decide) (by decide)).2 (by decide)

end PVC
